import Mathlib

/-!
Verification of the Page module (`src/modules/page/page.js`).

The JavaScript code is embedded shallowly:

* JS `Error` objects are represented by their message (`JSError`).
* jQuery element trees are represented by `Node`; a container element is
  represented by the list of its current child nodes.
* callback-passing code is represented by functions returning the values the
  code passes to its `done` continuation, together with the list of errors it
  sends to the strict-error channel (`strictError`) while running.
* external collaborators (`getContentType`, `getTemplate`,
  `block_expandBlock`) are parameters collected in `PageEnv`; the settings
  object loaded from `settings.xml` is a `Settings` value.
* JS truthiness is modelled explicitly where the source relies on it: a
  string is falsy iff it is empty, `undefined`/`null` are modelled by
  `Option.none`.
-/

/-- JS Error object, identified by its message string. -/
structure JSError where
  message : String
deriving DecidableEq

/-- Element tree: a text node or an element with a class list and children. -/
inductive Node where
  | text (s : String)
  | elem (classes : List String) (children : List Node)

/-- Concatenated text of a list of nodes, as jQuery `.text ()` computes it. -/
def textContentList : List Node → String
  | [] => ""
  | Node.text s :: rest => s ++ textContentList rest
  | Node.elem _ ch :: rest => textContentList ch ++ textContentList rest

/-- Whether some node in the list (or a descendant of one) carries the
`page_error_block` class. -/
def hasErrorBlockList : List Node → Bool
  | [] => false
  | Node.text _ :: rest => hasErrorBlockList rest
  | Node.elem cls ch :: rest =>
      if "page_error_block" ∈ cls then true
      else (hasErrorBlockList ch || hasErrorBlockList rest)

/-- Whether an element has a descendant carrying the `page_error_block`
class, i.e. whether `$(".page_error_block", template)` selects anything. -/
def Node.hasErrorBlockDescendant : Node → Bool
  | Node.text _ => false
  | Node.elem _ ch => hasErrorBlockList ch

/-- Replacement pass of
`$(".page_error_block", template).replaceWith (error.message)`: every
outermost node with class `page_error_block` becomes a text node holding
`msg`. -/
def page_replaceErrorBlocksList (msg : String) : List Node → List Node
  | [] => []
  | Node.text s :: rest => Node.text s :: page_replaceErrorBlocksList msg rest
  | Node.elem cls ch :: rest =>
      (if "page_error_block" ∈ cls then Node.text msg
       else Node.elem cls (page_replaceErrorBlocksList msg ch))
        :: page_replaceErrorBlocksList msg rest

/-- Substitution applied by `page_getErrorPageElement` to the loaded error
template: the jQuery selector runs in the context of `template`, so only
descendants of the root are replaced. -/
def page_errorTemplateSubst (msg : String) : Node → Node
  | Node.text s => Node.text s
  | Node.elem cls ch => Node.elem cls (page_replaceErrorBlocksList msg ch)

/-- Page Settings object produced by `page_parseSettings`. -/
structure Settings where
  default_page_id : String
  error_page_template : String
deriving DecidableEq

/-- Page Handler value: `page_applyPageHandler` dispatches on
`$.type (handler)`, so a handler is a function, a string (template name), or
some other JS value (`other`, tagged with its JS truthiness). A function
handler is modelled by the pair it passes to its `done` continuation. -/
inductive PageHandler where
  | func (f : String → Option JSError × Option Node)
  | str (template : String)
  | other (truthy : Bool)

/-- JS truthiness of a stored Page Handler value: functions are truthy,
strings are truthy iff nonempty. -/
def PageHandler.jsTruthy : PageHandler → Bool
  | PageHandler.func _ => true
  | PageHandler.str s => !s.isEmpty
  | PageHandler.other t => t

/-- Error reported by `page_HandlerStore.add` on a duplicate registration. -/
def page_conflictError (t : String) : JSError :=
  ⟨"[page][page_HandlerStore] Error: an error occured while trying to register a page handler for \"" ++ t
    ++ "\". Another handler has already been registered for \"" ++ t ++ "\"."⟩

/-- State of `page_HandlerStore`: the `_handlers` associative array, keyed by
page type. Lookup finds the most recent binding, as in a JS object. -/
structure page_HandlerStore where
  handlers : List (String × PageHandler)

/-- The store's `get`: returns `_handlers [type]`, i.e. `none` when no
handler is registered for `type`. -/
def page_HandlerStore.get (s : page_HandlerStore) (t : String) : Option PageHandler :=
  List.lookup t s.handlers

/-- The store's `add`: `if (_handlers [type]) { return strictError (...); }
_handlers [type] = handler;`. The guard is a JS truthiness test on the stored
value, so the conflict path is taken only when the existing entry is truthy;
on conflict the new registration is dropped and the conflict error goes to
the strict-error channel (returned in the second component). -/
def page_HandlerStore.add (s : page_HandlerStore) (t : String) (handler : PageHandler) :
    page_HandlerStore × List JSError :=
  match page_HandlerStore.get s t with
  | some h0 =>
      if h0.jsTruthy then (s, [page_conflictError t])
      else (⟨(t, handler) :: s.handlers⟩, [])
  | none => (⟨(t, handler) :: s.handlers⟩, [])

/-- The store's `addHandlers`: `self.add` applied to every entry in turn. -/
def page_HandlerStore.addHandlers (s : page_HandlerStore)
    (entries : List (String × PageHandler)) : page_HandlerStore × List JSError :=
  entries.foldl
    (fun acc e =>
      let r := page_HandlerStore.add acc.1 e.1 e.2
      (r.1, acc.2 ++ r.2))
    (s, [])

/-- State of a `PageLoadHandlerStore`: the `_handlers` array of registered
page load handlers, together with the contents of the global
`Array.prototype` object, which the buggy `addHandlers` mutates. -/
structure PageLoadHandlerStore (α : Type) where
  handlers : List α
  arrayProto : List (List α)

/-- The store's `add`: `_handlers.push (handler)`. -/
def PageLoadHandlerStore.add {α : Type} (s : PageLoadHandlerStore α) (h : α) :
    PageLoadHandlerStore α :=
  { s with handlers := s.handlers ++ [h] }

/-- The store's `addHandlers`: the source runs
`Array.prototype.push (_handlers, handlers)`, which calls `push` with `this`
bound to `Array.prototype` and appends its two arguments — the internal
`_handlers` array and the argument array — onto `Array.prototype` itself.
The store's own handler list is left unchanged. -/
def PageLoadHandlerStore.addHandlers {α : Type} (s : PageLoadHandlerStore α) (hs : List α) :
    PageLoadHandlerStore α :=
  { s with arrayProto := s.arrayProto ++ [s.handlers, hs] }

/-- Observable events of one `execute` call: handler `i` is started with the
page id, handler `i` signals completion, the joint `done` continuation is
called (with no result value). -/
inductive ExecEvent where
  | start (i : Nat) (id : String)
  | complete (i : Nat)
  | doneCall
deriving DecidableEq

/-- Modelled from the spec: the completion phase of `async.applyEach`, whose
implementation is the external `async` library and is not part of this
repository. Completions arrive in the order given by `sched`; a counter
starting at `k` tracks how many of the `n` launched handlers have finished,
and the joint `done` continuation fires as soon as the counter reaches
`n`. -/
def page_applyEachCompletions (n : Nat) : List Nat → Nat → List ExecEvent
  | [], _ => []
  | i :: rest, k =>
      if k + 1 = n then
        ExecEvent.complete i :: ExecEvent.doneCall :: page_applyEachCompletions n rest (k + 1)
      else
        ExecEvent.complete i :: page_applyEachCompletions n rest (k + 1)

/-- Modelled from the spec: the event trace of
`async.applyEach (_handlers, id, done)` for `n` registered handlers (the
`async` library is an external collaborator, so its fan-out/join contract is
taken from the spec). All `n` handlers are started, in order, each with the
same `id`; only then are completions awaited, arriving in the order `sched`;
`done` is called once all have completed (immediately when `n = 0`). -/
def page_applyEachTrace (n : Nat) (id : String) (sched : List Nat) : List ExecEvent :=
  ((List.range n).map fun i => ExecEvent.start i id)
    ++ (if n = 0 then [ExecEvent.doneCall] else page_applyEachCompletions n sched 0)

/-- The store's `execute (id, done)`, as an event trace:
`async.applyEach (_handlers, id, done)` over the registered handler list,
with completion order `sched`. -/
def PageLoadHandlerStore.executeTrace {α : Type} (s : PageLoadHandlerStore α) (id : String)
    (sched : List Nat) : List ExecEvent :=
  page_applyEachTrace s.handlers.length id sched

/-- External collaborators of the Page module, plus the loaded settings:
`getContentType` (content classifier), `getTemplate` (template loader, its
result modelled as the pair it passes to `done`), the stored `page_SETTINGS`,
and `block_expandBlock` (nested block expansion, modelled by the error it
passes to its continuation). -/
structure PageEnv where
  getContentType : String → String
  getTemplate : String → Except JSError Node
  settings : Settings
  expandBlock : String → Option Node → Option JSError

/-- Result of a callback-passing call: the errors it reported through
`strictError` while running, and the `(error, element)` pair it passed to
`done`. -/
structure CallOutcome where
  reported : List JSError
  err : Option JSError
  element : Option Node

/-- Error built and reported by `page_applyPageHandler` for a handler that is
neither a function nor a string. -/
def page_invalidHandlerError : JSError :=
  ⟨"[page][page_applyPageHandler] Error: invalid page handler type. Page handlers must be either a string or a function."⟩

/-- Embedding of `page_applyPageHandler (handler, id, done)`: dispatch on
`$.type (handler)` — a function is applied to `id`, a string is passed to
`getTemplate`, anything else reports and returns the invalid-handler
error. -/
def page_applyPageHandler (env : PageEnv) (handler : PageHandler) (id : String) : CallOutcome :=
  match handler with
  | PageHandler.func f => ⟨[], (f id).1, (f id).2⟩
  | PageHandler.str s =>
      match env.getTemplate s with
      | Except.ok tpl => ⟨[], none, some tpl⟩
      | Except.error e => ⟨[], some e, none⟩
  | PageHandler.other _ => ⟨[page_invalidHandlerError], some page_invalidHandlerError, none⟩

/-- Embedding of `page_getPageElement (id, done)`: look up the handler for
`getContentType (id)`; the source guards with `handler ? ... : done (null,
null)`, a JS truthiness test, so an absent (or falsy) handler yields
`done (null, null)`. -/
def page_getPageElement (env : PageEnv) (store : page_HandlerStore) (id : String) : CallOutcome :=
  match page_HandlerStore.get store (env.getContentType id) with
  | some handler =>
      if handler.jsTruthy then page_applyPageHandler env handler id else ⟨[], none, none⟩
  | none => ⟨[], none, none⟩

/-- Message of the error that `page_setPageElement` builds around a page
load failure before reporting it and passing it on. -/
def page_loadErrorMessage (m : String) : String :=
  "[page][page_setPageElement] Error: an error occured while trying to load a page element. " ++ m

/-- Message of the error `page_getErrorPageElement` passes to `done` when the
Error Page template cannot be loaded. -/
def page_errorPageLoadMessage (m : String) : String :=
  "[page][page_getErrorPageElement] Error: an error occured while trying to load the Error Page template. " ++ m

/-- Embedding of `page_getErrorPageElement (error, done)`: load the Error
Page template named by the settings; on failure pass a wrapping error to
`done`; on success replace every `page_error_block` descendant with the
error's message and pass the element to `done`. -/
def page_getErrorPageElement (env : PageEnv) (error : JSError) : CallOutcome :=
  match env.getTemplate env.settings.error_page_template with
  | Except.error e => ⟨[], some ⟨page_errorPageLoadMessage e.message⟩, none⟩
  | Except.ok tpl => ⟨[], none, some (page_errorTemplateSubst error.message tpl)⟩

/-- Result of `page_setPageElement`: strict-error reports, the container's
children afterwards, and the `(error, element)` pair passed to `done`. -/
structure MountOutcome where
  reported : List JSError
  container : List Node
  err : Option JSError
  element : Option Node

/-- Embedding of `page_setPageElement (containerElement, id, done)`. On a
page load error the error is wrapped, reported through `strictError`, and the
error page is built: if that too fails, `done` receives the secondary error
and the container is untouched; otherwise the container is emptied, the error
page element appended, and `done` receives the wrapped load error. On success
the container is emptied, the (possibly null) page element appended, and
`done` receives `(null, pageElement)`. -/
def page_setPageElement (env : PageEnv) (store : page_HandlerStore) (container : List Node)
    (id : String) : MountOutcome :=
  let r := page_getPageElement env store id
  match r.err with
  | some e0 =>
      let wrapped : JSError := ⟨page_loadErrorMessage e0.message⟩
      let r2 := page_getErrorPageElement env wrapped
      match r2.err with
      | some e2 => ⟨r.reported ++ [wrapped] ++ r2.reported, container, some e2, none⟩
      | none =>
          ⟨r.reported ++ [wrapped] ++ r2.reported, Option.toList r2.element, some wrapped, none⟩
  | none => ⟨r.reported, Option.toList r.element, none, r.element⟩

/-- JS truthiness of an optional string (`undefined`/`null`/`""` are
falsy). -/
def jsTruthyOpt : Option String → Bool
  | none => false
  | some s => !s.isEmpty

/-- JS `a || b` for an optional string `a` and a string default `b`. -/
def jsOrDefault : Option String → String → String
  | none, d => d
  | some s, d => if s.isEmpty then d else s

/-- Block Expansion Context as `page_block` consumes it: the container
element's current children (`context.element`) and the result of
`context.getId ()`. -/
structure BlockContext where
  elementContent : List Node
  ctxId : Option String

/-- Tags naming the page load handlers that can sit in
`PAGE_LOAD_HANDLERS`: the block-expansion handler registered at module load,
a standing reaction registered by `page_block` for its context, or a handler
registered by some other module. -/
inductive ReactionTag where
  | expandDocumentBlocks
  | blockReaction (ctx : BlockContext)
  | foreign (k : Nat)

/-- Tags for entries of the external `block_HANDLERS` store. -/
inductive BlockHandlerTag where
  | page_block
  | foreign (k : Nat)

/-- Tags for entries of the external `APP_LOAD_HANDLERS` list; the Page
module registers one bootstrap handler closing over the loaded settings. -/
inductive AppReactionTag where
  | page_bootstrap (settings : Settings)
  | foreign (k : Nat)

/-- Result of one `page_block (context, done)` call: the page load handler
store afterwards, the container's children, strict-error reports, and the
pair passed to `done`. -/
structure BlockOutcome where
  pageLoadHandlers : PageLoadHandlerStore ReactionTag
  reported : List JSError
  container : List Node
  err : Option JSError
  element : Option Node

/-- Mounting part of `page_block (context, done)`:
`id = context.element.text () || context.getId ()`; if `id` is falsy the
container is emptied and `done (null)` called, otherwise the page is mounted
into the container by `page_setPageElement`. Returns strict-error reports,
the container's children, and the pair passed to `done`. -/
def page_blockMount (env : PageEnv) (store : page_HandlerStore) (ctx : BlockContext) :
    List JSError × List Node × Option JSError × Option Node :=
  let txt := textContentList ctx.elementContent
  let idOpt : Option String := if txt.isEmpty then ctx.ctxId else some txt
  match idOpt with
  | none => ([], [], none, none)
  | some s =>
      if s.isEmpty then ([], [], none, none)
      else
        let m := page_setPageElement env store ctx.elementContent s
        (m.reported, m.container, m.err, m.element)

/-- Embedding of `page_block (context, done)`: a standing reaction for this
context is pushed onto `PAGE_LOAD_HANDLERS` unconditionally, then the block's
own mount (`page_blockMount`) runs. -/
def page_block (env : PageEnv) (store : page_HandlerStore)
    (pls : PageLoadHandlerStore ReactionTag) (ctx : BlockContext) : BlockOutcome :=
  let r := page_blockMount env store ctx
  ⟨PageLoadHandlerStore.add pls (ReactionTag.blockReaction ctx), r.1, r.2.1, r.2.2.1, r.2.2.2⟩

/-- Result of running one page load reaction: strict-error reports, the
reaction's container afterwards, and the error passed to `next`. -/
structure ReactionOutcome where
  reported : List JSError
  container : List Node
  err : Option JSError

/-- Embedding of the standing reaction `page_block` registers (lines
278-293): on each navigation it receives the navigation's id (`navId`,
possibly absent); a falsy id falls back to `context.getId ()`; if that too is
falsy the container is emptied and `next (null)` called; otherwise the
container is re-mounted via `page_setPageElement` and, on success, the
mounted element is expanded by the external `block_expandBlock`. -/
def page_blockReactionRun (env : PageEnv) (store : page_HandlerStore) (ctx : BlockContext)
    (container : List Node) (navId : Option String) : ReactionOutcome :=
  let idOpt := if jsTruthyOpt navId then navId else ctx.ctxId
  match idOpt with
  | none => ⟨[], [], none⟩
  | some s =>
      if s.isEmpty then ⟨[], [], none⟩
      else
        let m := page_setPageElement env store container s
        match m.err with
        | some e => ⟨m.reported, m.container, some e⟩
        | none => ⟨m.reported, m.container, env.expandBlock s m.element⟩

/-- Operations the module can apply to a `PageLoadHandlerStore` over its
lifetime: `add`, `addHandlers`, and `execute` (which reads the handler list
but does not change it). -/
inductive StoreOp (α : Type) where
  | add (h : α)
  | addHandlers (hs : List α)
  | execute

/-- Effect of one store operation on the store state. -/
def StoreOp.apply {α : Type} : StoreOp α → PageLoadHandlerStore α → PageLoadHandlerStore α
  | StoreOp.add h, s => PageLoadHandlerStore.add s h
  | StoreOp.addHandlers hs, s => PageLoadHandlerStore.addHandlers s hs
  | StoreOp.execute, s => s

/-- Effect of a sequence of store operations, applied left to right. -/
def PageLoadHandlerStore.applyOps {α : Type} (ops : List (StoreOp α))
    (s : PageLoadHandlerStore α) : PageLoadHandlerStore α :=
  ops.foldl (fun acc op => StoreOp.apply op acc) s

/-- Global state the module's load handler touches: the stored settings
(`page_SETTINGS`, initially null), the external `block_HANDLERS` store, the
`PAGE_LOAD_HANDLERS` store, and the external `APP_LOAD_HANDLERS` list. -/
structure ModuleState where
  page_SETTINGS : Option Settings
  block_HANDLERS : List (String × BlockHandlerTag)
  PAGE_LOAD_HANDLERS : PageLoadHandlerStore ReactionTag
  APP_LOAD_HANDLERS : List AppReactionTag

/-- Embedding of the handler registered with `MODULE_LOAD_HANDLERS.add`
(lines 136-176): `loadResult` is the outcome `page_loadSettings` passes to
its continuation. On error, `done (error)` is called at once and nothing else
happens. On success the settings are stored, the `page_block` block handler,
the nested-expansion page load handler, and the app-load bootstrap handler
are registered, and `done (null)` is called. -/
def page_moduleLoadHandler (loadResult : Except JSError Settings) (s : ModuleState) :
    ModuleState × Option JSError :=
  match loadResult with
  | Except.error e => (s, some e)
  | Except.ok settings =>
      ({ page_SETTINGS := some settings
         block_HANDLERS := s.block_HANDLERS ++ [("page_block", BlockHandlerTag.page_block)]
         PAGE_LOAD_HANDLERS :=
           PageLoadHandlerStore.add s.PAGE_LOAD_HANDLERS ReactionTag.expandDocumentBlocks
         APP_LOAD_HANDLERS := s.APP_LOAD_HANDLERS ++ [AppReactionTag.page_bootstrap settings] },
       none)

/-- Observable events of the app-load bootstrap handler: the events of the
`PAGE_LOAD_HANDLERS.execute` call it makes, then the effects its completion
callback runs. -/
inductive BootEvent where
  | exec (e : ExecEvent)
  | fadein
  | scroll
deriving DecidableEq

/-- Embedding of the app load handler registered at step V (lines 156-171):
`id = getIdFromURL (url) || settings.default_page_id` (JS `||`, so an absent
or empty URL id falls back to the default), then
`PAGE_LOAD_HANDLERS.execute (id, ...)` whose completion callback runs
`page_fadein ()` then `page_scroll (url)`, unconditionally. `urlId` is the
result of the external `getIdFromURL`; `n` and `sched` describe the execute
fan-out as in `page_applyEachTrace`. Returns the id given to `execute` and
the event trace. -/
def page_appBootstrapRun (settings : Settings) (urlId : Option String) (n : Nat)
    (sched : List Nat) : String × List BootEvent :=
  let id := jsOrDefault urlId settings.default_page_id
  (id, (page_applyEachTrace n id sched).map BootEvent.exec ++ [BootEvent.fadein, BootEvent.scroll])

/-- Handler that fails with the error "boom", used as a concrete resolution
handler in witnesses and counterexamples. -/
def page_boomHandler : String → Option JSError × Option Node :=
  fun _ => (some ⟨"boom"⟩, none)

/-- Store holding the failing handler under content type "t". -/
def page_storeBoom : page_HandlerStore :=
  ⟨[("t", PageHandler.func page_boomHandler)]⟩

/-- Error Page template containing a `page_error_block` placeholder. -/
def page_sampleErrTemplate : Node :=
  Node.elem [] [Node.elem ["page_error_block"] []]

/-- Environment whose template loader yields the placeholder template. -/
def page_envTplOk : PageEnv :=
  ⟨fun _ => "t", fun _ => Except.ok page_sampleErrTemplate, ⟨"home", "error.tpl"⟩, fun _ _ => none⟩

/-- Environment whose template loader yields a template without any
`page_error_block` placeholder. -/
def page_envTplNoBlock : PageEnv :=
  ⟨fun _ => "t", fun _ => Except.ok (Node.elem [] [Node.text "oops"]), ⟨"home", "error.tpl"⟩,
   fun _ _ => none⟩

/-- Environment whose template loader always fails. -/
def page_envTplFail : PageEnv :=
  ⟨fun _ => "t", fun _ => Except.error ⟨"network down"⟩, ⟨"home", "error.tpl"⟩, fun _ _ => none⟩

theorem embed_append_left {α : Type} {x t : List α} (a : List α) (h : x <:+: t) :
    x <:+: a ++ t := by
  obtain ⟨u, v, huv⟩ := h
  exact ⟨a ++ u, v, by simp [← huv, List.append_assoc]⟩

theorem embed_append_right {α : Type} {x t : List α} (a : List α) (h : x <:+: t) :
    x <:+: t ++ a := by
  obtain ⟨u, v, huv⟩ := h
  exact ⟨u, v ++ a, by simp [← huv, List.append_assoc]⟩

/-- Substitution correctness: if some node of `l` (or a descendant) carries
the `page_error_block` class, the substituted list's text contains `msg`. -/
def page_replaceList_includes (msg : String) : (l : List Node) → hasErrorBlockList l = true →
    msg.data <:+: (textContentList (page_replaceErrorBlocksList msg l)).data
  | [], h => by simp [hasErrorBlockList] at h
  | Node.text s :: rest, h => by
      have ih := page_replaceList_includes msg rest (by simpa [hasErrorBlockList] using h)
      simpa [page_replaceErrorBlocksList, textContentList, String.data_append] using
        embed_append_left s.data ih
  | Node.elem cls ch :: rest, h => by
      by_cases hc : "page_error_block" ∈ cls
      · refine ⟨[], (textContentList (page_replaceErrorBlocksList msg rest)).data, ?_⟩
        simp [page_replaceErrorBlocksList, hc, textContentList, String.data_append]
      · simp only [hasErrorBlockList, if_neg hc, Bool.or_eq_true] at h
        rcases h with h | h
        · have ih := page_replaceList_includes msg ch h
          simpa [page_replaceErrorBlocksList, hc, textContentList, String.data_append] using
            embed_append_right (textContentList (page_replaceErrorBlocksList msg rest)).data ih
        · have ih := page_replaceList_includes msg rest h
          simpa [page_replaceErrorBlocksList, hc, textContentList, String.data_append] using
            embed_append_left (textContentList (page_replaceErrorBlocksList msg ch)).data ih

/-- Shape of the completion phase once all handlers have been started: with
`k` completions already counted and the remaining `sched` completing the
count to `n`, each completion event is emitted in schedule order and the
joint `done` fires right after the last one. -/
theorem page_applyEachCompletions_eq (n : Nat) (sched : List Nat) :
    ∀ (k : Nat), sched ≠ [] → k + sched.length = n →
      page_applyEachCompletions n sched k
        = sched.map ExecEvent.complete ++ [ExecEvent.doneCall] := by
  induction sched with
  | nil => intro k hne _; exact absurd rfl hne
  | cons i rest ih =>
      intro k _ hk
      cases rest with
      | nil =>
          have h1 : k + 1 = n := by simpa using hk
          simp [page_applyEachCompletions, h1]
      | cons j rest2 =>
          have hlt : ¬(k + 1 = n) := by
            simp [List.length_cons] at hk
            omega
          have heq := ih (k + 1) (by simp) (by simp [List.length_cons] at hk ⊢; omega)
          simp only [page_applyEachCompletions, if_neg hlt, List.map_cons,
            List.cons_append] at heq ⊢
          rw [heq]

/-- C1 (counterexample): the registry's conflict check is a JS truthiness
test, so a first handler that is an empty string (a falsy but successfully
stored value) does not protect the entry. With `h1 = ""` the second
`add ("t", "x")` reports nothing and silently overwrites, and `get "t"`
returns the second handler, contradicting the claim at this input. -/
theorem page_HandlerStore_add_falsy_overwrite :
    ¬ ((page_HandlerStore.add
          (page_HandlerStore.add ⟨[]⟩ "t" (PageHandler.str "")).1
          "t" (PageHandler.str "x")).2 ≠ []
        ∧ page_HandlerStore.get
            (page_HandlerStore.add
              (page_HandlerStore.add ⟨[]⟩ "t" (PageHandler.str "")).1
              "t" (PageHandler.str "x")).1 "t" = some (PageHandler.str ""))
    ∧ (page_HandlerStore.add ⟨[]⟩ "t" (PageHandler.str "")).2 = []
    ∧ (page_HandlerStore.add
        (page_HandlerStore.add ⟨[]⟩ "t" (PageHandler.str "")).1
        "t" (PageHandler.str "x")).2 = []
    ∧ page_HandlerStore.get
        (page_HandlerStore.add
          (page_HandlerStore.add ⟨[]⟩ "t" (PageHandler.str "")).1
          "t" (PageHandler.str "x")).1 "t" = some (PageHandler.str "x") := by
  refine ⟨?_, rfl, rfl, rfl⟩
  rintro ⟨h1, -⟩
  exact h1 rfl

/-- C1 (amended): for a truthy first handler (a function, or a nonempty
template string) registered into a registry with no entry at `t`, the first
`add` succeeds silently, a second `add` for the same type reports a
ConfigurationConflict through the strict-error channel and is dropped, and
`get t` still returns the first handler. -/
theorem page_HandlerStore_add_conflict (s : page_HandlerStore) (t : String)
    (h1 h2 : PageHandler) (habsent : page_HandlerStore.get s t = none)
    (htruthy : h1.jsTruthy = true) :
    (page_HandlerStore.add s t h1).2 = []
    ∧ page_HandlerStore.get (page_HandlerStore.add s t h1).1 t = some h1
    ∧ (page_HandlerStore.add (page_HandlerStore.add s t h1).1 t h2).2
        = [page_conflictError t]
    ∧ (page_HandlerStore.add (page_HandlerStore.add s t h1).1 t h2).1
        = (page_HandlerStore.add s t h1).1
    ∧ page_HandlerStore.get
        (page_HandlerStore.add (page_HandlerStore.add s t h1).1 t h2).1 t = some h1 := by
  have hadd1 : page_HandlerStore.add s t h1 = (⟨(t, h1) :: s.handlers⟩, []) := by
    simp [page_HandlerStore.add, habsent]
  have hget1 : page_HandlerStore.get (⟨(t, h1) :: s.handlers⟩ : page_HandlerStore) t
      = some h1 := by
    simp [page_HandlerStore.get, List.lookup]
  have hadd2 : page_HandlerStore.add (⟨(t, h1) :: s.handlers⟩ : page_HandlerStore) t h2
      = (⟨(t, h1) :: s.handlers⟩, [page_conflictError t]) := by
    simp [page_HandlerStore.add, page_HandlerStore.get, List.lookup, htruthy]
  rw [hadd1]
  exact ⟨rfl, hget1, by rw [hadd2], by rw [hadd2], by rw [hadd2]; exact hget1⟩

/-- C1 (witness): concrete instance of the amended claim, with the truthy
template-string handler "page.tpl" registered first for type "static". -/
theorem page_HandlerStore_add_conflict_witness :
    page_HandlerStore.get ⟨[]⟩ "static" = none
    ∧ PageHandler.jsTruthy (PageHandler.str "page.tpl") = true
    ∧ (page_HandlerStore.add
        (page_HandlerStore.add ⟨[]⟩ "static" (PageHandler.str "page.tpl")).1
        "static" (PageHandler.str "other.tpl")).2 = [page_conflictError "static"]
    ∧ page_HandlerStore.get
        (page_HandlerStore.add
          (page_HandlerStore.add ⟨[]⟩ "static" (PageHandler.str "page.tpl")).1
          "static" (PageHandler.str "other.tpl")).1 "static"
        = some (PageHandler.str "page.tpl") := by
  refine ⟨rfl, rfl, ?_, ?_⟩
  · exact (page_HandlerStore_add_conflict ⟨[]⟩ "static" (PageHandler.str "page.tpl")
      (PageHandler.str "other.tpl") rfl rfl).2.2.1
  · exact (page_HandlerStore_add_conflict ⟨[]⟩ "static" (PageHandler.str "page.tpl")
      (PageHandler.str "other.tpl") rfl rfl).2.2.2.2

/-- C2 (code bug): `addHandlers` runs `Array.prototype.push (_handlers,
handlers)`, which appends the two array objects onto `Array.prototype`
instead of appending the elements of `handlers` onto `_handlers`. The
registered handler list is unchanged, so a subsequent `execute` runs exactly
the previously registered handlers and none of the new ones (its trace is
the trace of the unmodified store). -/
theorem PageLoadHandlerStore_addHandlers_noop {α : Type} (s : PageLoadHandlerStore α)
    (hs : List α) :
    (PageLoadHandlerStore.addHandlers s hs).handlers = s.handlers
    ∧ (PageLoadHandlerStore.addHandlers s hs).arrayProto = s.arrayProto ++ [s.handlers, hs]
    ∧ (∀ (id : String) (sched : List Nat),
        PageLoadHandlerStore.executeTrace (PageLoadHandlerStore.addHandlers s hs) id sched
          = PageLoadHandlerStore.executeTrace s id sched) :=
  ⟨rfl, rfl, fun _ _ => rfl⟩

/-- C5: when the classified content type of `id` has no registered handler,
`page_setPageElement` empties the container and signals success with no
element: `done (null, null)`, no strict error, never an error outcome. -/
theorem page_setPageElement_no_handler (env : PageEnv) (store : page_HandlerStore)
    (container : List Node) (id : String)
    (h : page_HandlerStore.get store (env.getContentType id) = none) :
    page_setPageElement env store container id = ⟨[], [], none, none⟩ := by
  simp [page_setPageElement, page_getPageElement, h, Option.toList]

/-- C5 (witness): no handler is registered for the type of "missing:x", so
the mount empties the container and calls `done (null, null)`. -/
theorem page_setPageElement_no_handler_witness :
    page_HandlerStore.get ⟨[]⟩ (page_envTplNoBlock.getContentType "missing:x") = none
    ∧ page_setPageElement page_envTplNoBlock ⟨[]⟩ [Node.text "old"] "missing:x"
        = ⟨[], [], none, none⟩ :=
  ⟨rfl, page_setPageElement_no_handler page_envTplNoBlock ⟨[]⟩ [Node.text "old"] "missing:x" rfl⟩

/-- C7: if loading the Settings document fails, the module load handler
passes the error to its continuation and performs no registration at all:
the stored settings, the block handler store, the page load handler store
and the app load handler list are all exactly as before. -/
theorem page_moduleLoadHandler_settings_failure (e : JSError) (s : ModuleState) :
    page_moduleLoadHandler (Except.error e) s = (s, some e)
    ∧ (page_moduleLoadHandler (Except.error e) s).1.page_SETTINGS = s.page_SETTINGS
    ∧ (page_moduleLoadHandler (Except.error e) s).1.block_HANDLERS = s.block_HANDLERS
    ∧ (page_moduleLoadHandler (Except.error e) s).1.PAGE_LOAD_HANDLERS.handlers
        = s.PAGE_LOAD_HANDLERS.handlers
    ∧ (page_moduleLoadHandler (Except.error e) s).1.APP_LOAD_HANDLERS = s.APP_LOAD_HANDLERS :=
  ⟨rfl, rfl, rfl, rfl, rfl⟩

/-- C9: a registered handler that is neither a function nor a string makes
`page_applyPageHandler` report the invalid-handler error through the
strict-error channel and pass that error to `done`, with no element: the
resolution surfaces as an Error outcome and the handler is never invoked. -/
theorem page_applyPageHandler_invalid (env : PageEnv) (id : String) (t : Bool) :
    page_applyPageHandler env (PageHandler.other t) id
      = ⟨[page_invalidHandlerError], some page_invalidHandlerError, none⟩ := rfl

/-- C3: for a store with N registered handlers and any completion schedule
that completes each handler exactly once, the `execute` trace starts every
handler with the same id (all N start events come first, before any
completion), and the joint `done` is called exactly once, strictly after all
N completions. -/
theorem PageLoadHandlerStore_execute_fanout {α : Type} (s : PageLoadHandlerStore α)
    (id : String) (sched : List Nat)
    (hperm : sched.Perm (List.range s.handlers.length)) :
    PageLoadHandlerStore.executeTrace s id sched
      = (((List.range s.handlers.length).map fun i => ExecEvent.start i id)
          ++ sched.map ExecEvent.complete) ++ [ExecEvent.doneCall]
    ∧ (∀ i, i < s.handlers.length →
        ExecEvent.start i id ∈ PageLoadHandlerStore.executeTrace s id sched)
    ∧ ExecEvent.doneCall ∉ ((List.range s.handlers.length).map fun i => ExecEvent.start i id)
    ∧ ExecEvent.doneCall ∉ sched.map ExecEvent.complete := by
  have hlen : sched.length = s.handlers.length := by simpa using hperm.length_eq
  have hshape : PageLoadHandlerStore.executeTrace s id sched
      = (((List.range s.handlers.length).map fun i => ExecEvent.start i id)
          ++ sched.map ExecEvent.complete) ++ [ExecEvent.doneCall] := by
    by_cases hn : s.handlers.length = 0
    · have hsched : sched = [] := List.eq_nil_of_length_eq_zero (by rw [hlen, hn])
      simp [PageLoadHandlerStore.executeTrace, page_applyEachTrace, hn, hsched]
    · have hne : sched ≠ [] := by
        intro hflat
        apply hn
        rw [← hlen, hflat]
        rfl
      rw [PageLoadHandlerStore.executeTrace, page_applyEachTrace, if_neg hn,
        page_applyEachCompletions_eq s.handlers.length sched 0 hne (by simpa using hlen)]
      simp [List.append_assoc]
  refine ⟨hshape, ?_, by simp, by simp⟩
  intro i hi
  rw [hshape]
  simp only [List.mem_append, List.mem_map, List.mem_range, List.mem_singleton]
  exact Or.inl (Or.inl ⟨i, hi, rfl⟩)

/-- C3 (witness): two registered handlers, completions arriving in reverse
order; both handlers are started with the id "home" before either
completion, and `done` fires once, last. -/
theorem PageLoadHandlerStore_execute_fanout_witness :
    ([1, 0] : List Nat).Perm
      (List.range (PageLoadHandlerStore.handlers (α := Nat) ⟨[5, 7], []⟩).length)
    ∧ PageLoadHandlerStore.executeTrace (α := Nat) ⟨[5, 7], []⟩ "home" [1, 0]
        = ([ExecEvent.start 0 "home", ExecEvent.start 1 "home"]
            ++ [ExecEvent.complete 1, ExecEvent.complete 0]) ++ [ExecEvent.doneCall] := by
  have hp : ([1, 0] : List Nat).Perm (List.range 2) := by decide
  refine ⟨hp, ?_⟩
  have h := (PageLoadHandlerStore_execute_fanout (α := Nat) ⟨[5, 7], []⟩ "home" [1, 0] hp).1
  simpa using h

/-- C6: when resolution fails with `E` and loading the Error Page template
itself fails with `Et`, the mount passes the secondary error (the
ErrorPageLoadFailure built by `page_getErrorPageElement` around `Et`) to the
completion callback, attempts no further fallback, and leaves the
container's contents exactly as they were; the strict-error channel receives
only the wrapped resolution error. -/
theorem page_setPageElement_error_template_failure (env : PageEnv)
    (store : page_HandlerStore) (container : List Node) (id : String) (E Et : JSError)
    (hres : (page_getPageElement env store id).err = some E)
    (htpl : env.getTemplate env.settings.error_page_template = Except.error Et) :
    page_setPageElement env store container id
      = ⟨(page_getPageElement env store id).reported ++ [⟨page_loadErrorMessage E.message⟩],
         container, some ⟨page_errorPageLoadMessage Et.message⟩, none⟩ := by
  simp [page_setPageElement, hres, page_getErrorPageElement, htpl]

/-- C6 (witness): the handler fails with "boom" and the template loader is
down; the caller receives the secondary template-load error and the
container keeps its previous children. -/
theorem page_setPageElement_error_template_failure_witness :
    (page_getPageElement page_envTplFail page_storeBoom "x").err = some ⟨"boom"⟩
    ∧ page_envTplFail.getTemplate page_envTplFail.settings.error_page_template
        = Except.error ⟨"network down"⟩
    ∧ page_setPageElement page_envTplFail page_storeBoom [Node.text "old"] "x"
        = ⟨(page_getPageElement page_envTplFail page_storeBoom "x").reported
            ++ [⟨page_loadErrorMessage "boom"⟩],
           [Node.text "old"], some ⟨page_errorPageLoadMessage "network down"⟩, none⟩ :=
  ⟨rfl, rfl,
    page_setPageElement_error_template_failure page_envTplFail page_storeBoom
      [Node.text "old"] "x" ⟨"boom"⟩ ⟨"network down"⟩ rfl rfl⟩

/-- C8: the app-load bootstrap handler resolves the identifier from the URL
when one is present (nonempty), otherwise the settings' default page id;
it hands exactly that identifier to `PAGE_LOAD_HANDLERS.execute`, and its
completion callback then runs the fade-in effect followed by the
scroll-to-fragment effect. -/
theorem page_appBootstrapRun_spec (settings : Settings) (urlId : Option String) (n : Nat)
    (sched : List Nat) :
    (urlId = none →
      (page_appBootstrapRun settings urlId n sched).1 = settings.default_page_id)
    ∧ (∀ s, urlId = some s → s.isEmpty = false →
        (page_appBootstrapRun settings urlId n sched).1 = s)
    ∧ (page_appBootstrapRun settings urlId n sched).2
        = (page_applyEachTrace n (page_appBootstrapRun settings urlId n sched).1 sched).map
            BootEvent.exec ++ [BootEvent.fadein, BootEvent.scroll] := by
  refine ⟨?_, ?_, rfl⟩
  · intro h
    simp [page_appBootstrapRun, jsOrDefault, h]
  · intro s hs hne
    simp [page_appBootstrapRun, jsOrDefault, hs, hne]

/-- C8 (witness): with Settings default page id "home" and no identifier in
the URL, the bootstrap handler resolves "home". -/
theorem page_appBootstrapRun_spec_witness :
    (none : Option String) = none
    ∧ (page_appBootstrapRun ⟨"home", "error.tpl"⟩ none 0 []).1 = "home" :=
  ⟨rfl, (page_appBootstrapRun_spec ⟨"home", "error.tpl"⟩ none 0 []).1 rfl⟩

/-- C4 (counterexample): with the error template lacking any
`page_error_block` placeholder, a handler failure with message "boom" leaves
the container's text as the template's own text (which does not contain
"boom"), and the completion callback receives the wrapped load error, not
the handler's original error object: the claim as stated fails at this
input. -/
theorem page_setPageElement_wrapped_error_cx :
    ¬ ((page_setPageElement page_envTplNoBlock page_storeBoom [] "x").err = some ⟨"boom"⟩
        ∧ ("boom" : String).data <:+:
            (textContentList
              (page_setPageElement page_envTplNoBlock page_storeBoom [] "x").container).data)
    ∧ (page_setPageElement page_envTplNoBlock page_storeBoom [] "x").err
        = some ⟨page_loadErrorMessage "boom"⟩
    ∧ textContentList (page_setPageElement page_envTplNoBlock page_storeBoom [] "x").container
        = "oops" := by
  have herr : (page_setPageElement page_envTplNoBlock page_storeBoom [] "x").err
      = some ⟨page_loadErrorMessage "boom"⟩ := rfl
  have hcont1 : (page_setPageElement page_envTplNoBlock page_storeBoom [] "x").container
      = [Node.elem []
          (page_replaceErrorBlocksList (page_loadErrorMessage "boom") [Node.text "oops"])] := rfl
  have hrep : page_replaceErrorBlocksList (page_loadErrorMessage "boom") [Node.text "oops"]
      = [Node.text "oops"] := by
    simp [page_replaceErrorBlocksList]
  have htext : textContentList
      (page_setPageElement page_envTplNoBlock page_storeBoom [] "x").container = "oops" := by
    rw [hcont1, hrep]
    simp [textContentList]
  refine ⟨?_, herr, htext⟩
  rintro ⟨h1, -⟩
  rw [herr] at h1
  exact absurd h1 (by decide)

/-- C4 (amended): for any resolution that fails with error `E` — a function
handler passing an error, a template handler whose template load fails, or
an invalid handler — when the error template loads, the mount reports the
wrapped resolution error (its message embedding `E`'s) through the
strict-error channel, empties the container and fills it with the
substituted error template, and the completion callback receives that
wrapped error — an error, not success — whose message includes `E`'s
message; if the template has a `page_error_block` placeholder, the
container's text afterwards includes `E`'s message. -/
theorem page_setPageElement_handler_failure (env : PageEnv) (store : page_HandlerStore)
    (container : List Node) (id : String) (E : JSError) (tpl : Node)
    (hres : (page_getPageElement env store id).err = some E)
    (htpl : env.getTemplate env.settings.error_page_template = Except.ok tpl) :
    page_setPageElement env store container id
      = ⟨(page_getPageElement env store id).reported ++ [⟨page_loadErrorMessage E.message⟩],
         [page_errorTemplateSubst (page_loadErrorMessage E.message) tpl],
         some ⟨page_loadErrorMessage E.message⟩, none⟩
    ∧ JSError.mk (page_loadErrorMessage E.message)
        ∈ (page_setPageElement env store container id).reported
    ∧ E.message.data <:+: (page_loadErrorMessage E.message).data
    ∧ (Node.hasErrorBlockDescendant tpl = true →
        E.message.data <:+:
          (textContentList
            (page_setPageElement env store container id).container).data) := by
  have hout : page_setPageElement env store container id
      = ⟨(page_getPageElement env store id).reported ++ [⟨page_loadErrorMessage E.message⟩],
         [page_errorTemplateSubst (page_loadErrorMessage E.message) tpl],
         some ⟨page_loadErrorMessage E.message⟩, none⟩ := by
    simp [page_setPageElement, hres, page_getErrorPageElement, htpl, Option.toList]
  have base : E.message.data <:+: (page_loadErrorMessage E.message).data := by
    rw [page_loadErrorMessage, String.data_append]
    exact embed_append_left _ ⟨[], [], by simp⟩
  refine ⟨hout, by rw [hout]; simp, base, ?_⟩
  intro hd
  rw [hout]
  cases tpl with
  | text s => simp [Node.hasErrorBlockDescendant] at hd
  | elem cls ch =>
      have key := page_replaceList_includes (page_loadErrorMessage E.message) ch
        (by simpa [Node.hasErrorBlockDescendant] using hd)
      have hfull := base.trans key
      simpa [page_errorTemplateSubst, textContentList, String.data_append] using hfull

/-- C4 (witness): the handler for type "t" fails with "boom"; with the
placeholder-bearing sample template, the container's text afterwards
contains "boom" and the callback receives the wrapped error. -/
theorem page_setPageElement_handler_failure_witness :
    (page_getPageElement page_envTplOk page_storeBoom "x").err = some ⟨"boom"⟩
    ∧ page_envTplOk.getTemplate page_envTplOk.settings.error_page_template
        = Except.ok page_sampleErrTemplate
    ∧ Node.hasErrorBlockDescendant page_sampleErrTemplate = true
    ∧ ("boom" : String).data <:+:
        (textContentList
          (page_setPageElement page_envTplOk page_storeBoom [Node.text "old"] "x").container).data := by
  refine ⟨rfl, rfl, by simp [page_sampleErrTemplate, Node.hasErrorBlockDescendant,
    hasErrorBlockList], ?_⟩
  exact (page_setPageElement_handler_failure page_envTplOk page_storeBoom [Node.text "old"] "x"
    ⟨"boom"⟩ page_sampleErrTemplate rfl rfl).2.2.2
    (by simp [page_sampleErrTemplate, Node.hasErrorBlockDescendant, hasErrorBlockList])

/-- C10: every `page_block` call appends exactly one standing reaction for
its context to the page load handler store; no store operation (`add`,
`addHandlers`, `execute`) ever removes a handler — the old list is a prefix
of the list after any sequence of operations — so the appended reaction
remains registered forever; and whenever that reaction runs for a navigation
id, it empties its container if neither the navigation id nor the context id
is truthy, and otherwise leaves the container exactly as a fresh
`page_setPageElement` mount of the determined id leaves it. -/
theorem page_block_standing_reaction (env : PageEnv) (store : page_HandlerStore)
    (pls : PageLoadHandlerStore ReactionTag) (ctx : BlockContext) :
    (page_block env store pls ctx).pageLoadHandlers.handlers
      = pls.handlers ++ [ReactionTag.blockReaction ctx]
    ∧ (∀ (s : PageLoadHandlerStore ReactionTag) (ops : List (StoreOp ReactionTag)),
        s.handlers <+: (PageLoadHandlerStore.applyOps ops s).handlers)
    ∧ (∀ ops : List (StoreOp ReactionTag),
        ReactionTag.blockReaction ctx
          ∈ (PageLoadHandlerStore.applyOps ops
              (page_block env store pls ctx).pageLoadHandlers).handlers)
    ∧ (∀ (container : List Node) (navId : Option String),
        (jsTruthyOpt navId = false → jsTruthyOpt ctx.ctxId = false →
          page_blockReactionRun env store ctx container navId = ⟨[], [], none⟩)
        ∧ (∀ s2, (if jsTruthyOpt navId then navId else ctx.ctxId) = some s2 →
            s2.isEmpty = false →
            (page_blockReactionRun env store ctx container navId).container
              = (page_setPageElement env store container s2).container)) := by
  have hA : (page_block env store pls ctx).pageLoadHandlers.handlers
      = pls.handlers ++ [ReactionTag.blockReaction ctx] := rfl
  have hB : ∀ (s : PageLoadHandlerStore ReactionTag) (ops : List (StoreOp ReactionTag)),
      s.handlers <+: (PageLoadHandlerStore.applyOps ops s).handlers := by
    intro s ops
    induction ops generalizing s with
    | nil => exact List.prefix_rfl
    | cons op rest ih =>
        have h1 : s.handlers <+: (StoreOp.apply op s).handlers := by
          cases op with
          | add h => exact List.prefix_append _ _
          | addHandlers hs => exact List.prefix_rfl
          | execute => exact List.prefix_rfl
        exact h1.trans (ih (StoreOp.apply op s))
  refine ⟨hA, hB, ?_, ?_⟩
  · intro ops
    apply (hB (page_block env store pls ctx).pageLoadHandlers ops).subset
    rw [hA]
    simp
  · intro container navId
    constructor
    · intro h1 h2
      cases hc : ctx.ctxId with
      | none => simp [page_blockReactionRun, h1, hc]
      | some s =>
          have hs : s.isEmpty = true := by simpa [jsTruthyOpt, hc] using h2
          simp [page_blockReactionRun, h1, hc, hs]
    · intro s2 hs2 hne
      cases hm : (page_setPageElement env store container s2).err with
      | none => simp [page_blockReactionRun, hs2, hne, hm]
      | some e => simp [page_blockReactionRun, hs2, hne, hm]

/-- C10 (witness): a `page_block` call on an empty store registers exactly
its standing reaction, and running that reaction with no navigation id and
no context id empties the container and reports no error. -/
theorem page_block_standing_reaction_witness :
    (page_block page_envTplNoBlock ⟨[]⟩ ⟨[], []⟩ ⟨[], none⟩).pageLoadHandlers.handlers
      = [ReactionTag.blockReaction ⟨[], none⟩]
    ∧ jsTruthyOpt none = false
    ∧ page_blockReactionRun page_envTplNoBlock ⟨[]⟩ ⟨[], none⟩ [Node.text "old"] none
        = ⟨[], [], none⟩ := by
  refine ⟨?_, rfl, ?_⟩
  · simpa using (page_block_standing_reaction page_envTplNoBlock ⟨[]⟩ ⟨[], []⟩ ⟨[], none⟩).1
  · exact ((page_block_standing_reaction page_envTplNoBlock ⟨[]⟩ ⟨[], []⟩ ⟨[], none⟩).2.2.2
      [Node.text "old"] none).1 rfl rfl
